import Mathlib

/-!
Shallow embedding of the dialogue-manager core of the ai-chatbot-framework
repository: the `State` conversation record (`app/bot/memory/models.py`),
the Mongo-backed memory saver (`app/bot/memory/memory_saver_mongo.py`),
and the `DialogueManager` slot-filling machine
(`app/bot/dialogue_manager/dialogue_manager.py`).

Python dictionaries are modelled as insertion-ordered association lists,
Python `None`-able values as `Option`, floats (only compared, never
computed with) as rationals, and timestamps as naturals supplied
explicitly by the caller.
-/

namespace ChatbotCore

/-- A Python `dict` keyed by strings: an insertion-ordered association list. -/
abbrev Dict (V : Type) := List (String × V)

/-- `d.get(k)` / `d[k]` lookup: the value at the first occurrence of `k`. -/
def dictGet {V : Type} (d : Dict V) (k : String) : Option V :=
  match d with
  | [] => none
  | (k2, v) :: t => if k2 = k then some v else dictGet t k

/-- `d[k] = v`: replace the value at `k` in place, or append a new binding. -/
def dictSet {V : Type} (d : Dict V) (k : String) (v : V) : Dict V :=
  match d with
  | [] => [(k, v)]
  | (k2, v2) :: t => if k2 = k then (k2, v) :: t else (k2, v2) :: dictSet t k v

/-- `k in d` membership test. -/
def dictHasKey {V : Type} (d : Dict V) (k : String) : Bool :=
  (dictGet d k).isSome

/-- First-operand-wins choice on options (used to state merge lookups). -/
def optOr {α : Type} (a b : Option α) : Option α :=
  match a with
  | some v => some v
  | none => b

/-- `d.update(m)`: merge `m` into `d`, m's bindings winning, in m's order. -/
def dictMerge {V : Type} (d m : Dict V) : Dict V :=
  m.foldl (fun acc kv => dictSet acc kv.1 kv.2) d

/-- Python `str.split(sep)` for a one-character separator, on the character
list of the string: splits at every occurrence, keeping empty pieces. -/
def splitChar (c : Char) : List Char → List (List Char)
  | [] => [[]]
  | x :: xs =>
    let r := splitChar c xs
    if x = c then [] :: r
    else
      match r with
      | [] => [[x]]
      | h :: t => (x :: h) :: t

/-- Python `text.split("/")` (from `_get_intent_id_and_confidence`). -/
def pySplitSlash (s : String) : List String :=
  (splitChar '/' s.toList).map List.asString

/-- Python `text.startswith("/")`. -/
def startsWithSlash (s : String) : Bool :=
  match s.toList with
  | [] => false
  | x :: _ => x = '/'

/-- Python `split` for the fixed three-hash delimiter, on a character
list: cut at every leftmost non-overlapping occurrence of `"###"`,
keeping empty pieces. -/
def splitHash : List Char → List (List Char)
  | [] => [[]]
  | '#' :: '#' :: '#' :: rest => [] :: splitHash rest
  | x :: xs =>
    match splitHash xs with
    | [] => [[x]]
    | h :: t => (x :: h) :: t

/-- `split_sentence` from `app/bot/dialogue_manager/utils.py`:
`sentence.split("###")`. -/
def split_sentence (sentence : String) : List String :=
  (splitHash sentence.toList).map List.asString

/-- Modelled from the spec: `UserMessage` (`app.bot.dialogue_manager.models`
is not present under `src/`): `thread_id`, `text` (raw utterance), and a
caller-supplied `context` mapping merged into the conversation context. -/
structure UserMessage where
  thread_id : String
  text : String
  context : Dict String
  deriving Repr, DecidableEq

/-- Modelled from the spec: `ParameterModel` (slot definition) from
`app.bot.dialogue_manager.models`, not present under `src/`: `name`,
`type` (entity type name or the sentinel `"free_text"`), `required`,
and the `prompt` template shown when the slot is missing. -/
structure ParameterModel where
  name : String
  type : String
  required : Bool
  prompt : String
  deriving Repr, DecidableEq

/-- Modelled from the spec: the API-trigger configuration of an intent
(`api_details`): url template, request type, headers, json flag and
json body template. -/
structure ApiDetails where
  url : String
  request_type : String
  headers : Dict String
  is_json : Bool
  json_data : String
  deriving Repr, DecidableEq

/-- Modelled from the spec: `IntentModel` from
`app.bot.dialogue_manager.models`, not present under `src/`: the runtime
fields the dialogue manager reads. -/
structure IntentModel where
  intent_id : String
  parameters : List ParameterModel
  api_trigger : Bool
  api_details : Option ApiDetails
  speech_response : String
  deriving Repr, DecidableEq

/-- A bot-message segment `{"text": msg}`. -/
structure Message where
  text : String
  deriving Repr, DecidableEq

/-- The raw NLU result stored on the state:
`{"entities": ..., "intent": ...}` (`process`, dialogue_manager.py:151).
Only the entities component is read by `_process_intent`. -/
structure NluInfo where
  entities : Dict String
  intentInfo : Dict String
  deriving Repr, DecidableEq

/-- `State` from `app/bot/memory/models.py`: the per-thread conversation
record. `none` models Python `None`; `nlu = none` models the empty dict
the constructor assigns. -/
structure State where
  thread_id : String
  user_message : Option UserMessage
  bot_message : Option (List Message)
  nlu : Option NluInfo
  context : Dict String
  intent : Option (Dict String)
  parameters : List (String × String × Bool)
  extracted_parameters : Dict String
  missing_parameters : List String
  complete : Bool
  current_node : Option String
  date : Nat
  deriving Repr, DecidableEq

/-- `State.__init__` (models.py:94-119): normalizes falsy arguments with
`or` (`context or {}`, `intent or {}`, `parameters or []`, ...), always
resets `nlu` to the empty dict, and defaults `date` to now. -/
def State.init (thread_id : String) (user_message : Option UserMessage)
    (bot_message : Option (List Message)) (context : Option (Dict String))
    (intent : Option (Dict String))
    (parameters : Option (List (String × String × Bool)))
    (extracted_parameters : Option (Dict String))
    (missing_parameters : Option (List String)) (complete : Bool)
    (current_node : Option String) (date : Option Nat) (now : Nat) : State :=
  { thread_id := thread_id
    user_message := user_message
    bot_message := bot_message
    nlu := none
    context := context.getD []
    intent := some (intent.getD [])
    parameters := parameters.getD []
    extracted_parameters := extracted_parameters.getD []
    missing_parameters := missing_parameters.getD []
    complete := complete
    current_node := current_node
    date := date.getD now }

/-- `State.update` (models.py:182-199): set the user message, refresh the
date, merge the message context into the state context, and if the state
was complete, reset every slot-filling field. -/
def State.update (s : State) (user_message : UserMessage) (now : Nat) : State :=
  let s1 : State :=
    { s with user_message := some user_message
             date := now
             context := dictMerge s.context user_message.context }
  if s1.complete then
    { s1 with bot_message := some []
              intent := none
              parameters := []
              extracted_parameters := []
              missing_parameters := []
              complete := false
              current_node := none }
  else s1

/-- `State.get_active_intent_id` (models.py:201-204): `if self.intent:`
Python truthiness, then `self.intent.get("id")`. -/
def State.get_active_intent_id (s : State) : Option String :=
  match s.intent with
  | none => none
  | some d => if d.isEmpty then none else dictGet d "id"

/-- `current_state.nlu.get("entities", {})` (dialogue_manager.py:207). -/
def State.nluEntities (s : State) : Dict String :=
  match s.nlu with
  | none => []
  | some n => n.entities

/-- `current_state.user_message.text`; `user_message` is always set by
`State.update` before `_process_intent` runs, so the `none` arm is dead
in every reachable call. -/
def State.userText (s : State) : String :=
  match s.user_message with
  | none => ""
  | some m => m.text

/-- The NLU top intent prediction `nlu_result["intent"]`:
`{"intent": name, "confidence": c}`. Confidence is modelled as a rational
(it is only ever compared, never computed with). -/
structure NluPrediction where
  intent : String
  confidence : ℚ
  deriving Repr, DecidableEq

/-- `DialogueManager._get_intent_id_and_confidence`
(dialogue_manager.py:175-186): slash-command override, else threshold
test against the NLU prediction. -/
def getIntentIdAndConfidence (confidence_threshold : ℚ) (fallback_intent_id : String)
    (input_text : String) (predicted : NluPrediction) : String × ℚ :=
  if startsWithSlash input_text then
    ((pySplitSlash input_text).getD 1 "", 1)
  else if predicted.confidence < confidence_threshold then
    (fallback_intent_id, 1)
  else
    (predicted.intent, predicted.confidence)

/-- The entity grouping loop of `_process_intent`
(dialogue_manager.py:209-213): group the extracted entities into
`entities_by_type : type -> [values]`, appending in iteration order. -/
def buildEntitiesByType (extracted_entities : Dict String) : Dict (List String) :=
  extracted_entities.foldl
    (fun acc nv =>
      match dictGet acc nv.1 with
      | none => dictSet acc nv.1 [nv.2]
      | some l => dictSet acc nv.1 (l ++ [nv.2]))
    []

/-- The slot-extraction loop of `_process_intent`
(dialogue_manager.py:223-229), threading the extracted-parameter dict and
the (destructively popped) `entities_by_type` dict through the parameters
in declared order. -/
def fillParams (current_node : Option String) (user_text : String) :
    List ParameterModel → Dict String → Dict (List String) →
    Dict String × Dict (List String)
  | [], extracted, entities_by_type => (extracted, entities_by_type)
  | p :: rest, extracted, entities_by_type =>
    if p.type = "free_text" ∧ current_node = some p.name then
      fillParams current_node user_text rest
        (dictSet extracted p.name user_text) entities_by_type
    else
      match dictGet entities_by_type p.type with
      | some (v :: vs) =>
        fillParams current_node user_text rest
          (dictSet extracted p.name v) (dictSet entities_by_type p.type vs)
      | _ => fillParams current_node user_text rest extracted entities_by_type

/-- `DialogueManager._handle_missing_parameters`
(dialogue_manager.py:236-252): recompute `missing_parameters`, reset
`current_node` and `bot_message`, and if something is missing point
`current_node` at the first missing parameter and set `bot_message` to
its prompt split on `"###"`. -/
def handleMissingParameters (parameters : List ParameterModel) (s : State) : State :=
  let missing := parameters.filter
    (fun p => p.required && !(dictHasKey s.extracted_parameters p.name))
  let s1 : State :=
    { s with missing_parameters := missing.map (fun p => p.name)
             current_node := none
             bot_message := some [] }
  match missing with
  | [] => s1
  | m :: _ =>
    { s1 with current_node := some m.name
              bot_message := some ((split_sentence m.prompt).map Message.mk) }

/-- The snapshot-then-extract body of `_process_intent` for a non-cancel
intent with a non-empty parameter list (dialogue_manager.py:206-231). -/
def processIntentCore (parameters : List ParameterModel) (s : State) : State :=
  let entities_by_type := buildEntitiesByType s.nluEntities
  let s1 : State :=
    if s.parameters.length = 0 then
      { s with parameters := parameters.map (fun p => (p.name, p.type, p.required)) }
    else s
  let filled := fillParams s1.current_node s1.userText parameters
    s1.extracted_parameters entities_by_type
  let s2 : State := { s1 with extracted_parameters := filled.1 }
  handleMissingParameters parameters s2

/-- `DialogueManager._process_intent` (dialogue_manager.py:194-234):
cancel escape hatch, otherwise run the slot-filling body over the live
`active_intent.parameters` when that list is non-empty (Python
`if parameters:`), then set `complete = not missing_parameters`. -/
def processIntent (query_intent active_intent : IntentModel) (s : State) :
    State × IntentModel :=
  if query_intent.intent_id = "cancel" then
    ({ s with complete := true
              parameters := []
              extracted_parameters := []
              missing_parameters := []
              current_node := none }, query_intent)
  else
    let s1 :=
      if active_intent.parameters.isEmpty then s
      else processIntentCore active_intent.parameters s
    ({ s1 with complete := s1.missing_parameters.isEmpty }, active_intent)

/-!
### Persistence: `State.to_dict` / `State.from_dict` and the Mongo saver

The Mongo document of a state is modelled by `State`'s own fields
(`to_dict` serializes them one-to-one, models.py:121-143). The saver's
`get` (memory_saver_mongo.py:70-78) projects away `_id`, `nlu`, `date`,
`user_message` and `bot_message` before rehydrating with
`State.from_dict` (models.py:145-180), whose `.get(...)` reads of absent
keys are modelled by a document of optional fields.
-/

/-- The projected document `find_one` hands to `State.from_dict`: a field
is `none` when its key is absent from the document or its value is the
JSON null (both make the Python `.get` read used by `from_dict` yield
`None`). `current_node` keeps the absent/null distinction because
`from_dict` reads it with an explicit `""` default. -/
structure PartialDoc where
  thread_id : String
  user_message : Option UserMessage
  bot_message : Option (List Message)
  context : Option (Dict String)
  intent : Option (Dict String)
  parameters : Option (List (String × String × Bool))
  extracted_parameters : Option (Dict String)
  missing_parameters : Option (List String)
  complete : Option Bool
  current_node : Option (Option String)
  date : Option Nat
  deriving Repr, DecidableEq

/-- `State.from_dict` (models.py:145-180): read each key with `.get`,
then hand the values to the constructor (which applies its `or`
normalizations and resets `nlu`). -/
def State.from_dict (d : PartialDoc) (now : Nat) : State :=
  State.init d.thread_id d.user_message d.bot_message d.context d.intent
    d.parameters d.extracted_parameters d.missing_parameters
    (d.complete.getD false) (d.current_node.getD (some "")) d.date now

/-- The projection of `MemorySaverMongo.get`
(memory_saver_mongo.py:71-75): the saved document (i.e. `to_dict` of the
saved state, memory_saver_mongo.py:66-68) with `_id`, `nlu`, `date`,
`user_message` and `bot_message` excluded. -/
def projectSavedState (s : State) : PartialDoc :=
  { thread_id := s.thread_id
    user_message := none
    bot_message := none
    context := some s.context
    intent := s.intent
    parameters := some s.parameters
    extracted_parameters := some s.extracted_parameters
    missing_parameters := some s.missing_parameters
    complete := some s.complete
    current_node := some s.current_node
    date := none }

/-- `MemorySaverMongo.save` followed by `MemorySaverMongo.get` for the
same thread with no intervening save: `get` finds the just-inserted
document, projects it, and rehydrates through `State.from_dict`. -/
def mongoRoundtrip (s : State) (now : Nat) : State :=
  State.from_dict (projectSavedState s) now

/-!
### Response / API-trigger phase

Python exceptions relevant to `_handle_api_trigger` / `_call_intent_api`
are modelled as an error sum; fallible calls return `Except`.
-/

/-- The exception kinds flowing through the API-trigger phase:
`DialogueManagerException`, `APICallExcetion` (the invoker's failure,
http_client.py:43), and every other exception class. -/
inductive PyErr where
  | dmError : String → PyErr
  | apiCallError : String → PyErr
  | otherError : String → PyErr
  deriving Repr, DecidableEq

/-- The external collaborators of the response phase: the
undefined-tolerant template renderer (total: `SilentUndefined` never
raises on a missing variable), `json.loads` (fallible), and the external
API invoker `call_api` (fallible). -/
structure ApiOracles where
  render : String → Dict String → Dict String → String
  renderWithResult : String → Dict String → Dict String → String → String
  jsonLoads : String → Except PyErr (Dict String)
  callApi : String → String → Dict String → Dict String → Bool → Except PyErr String

/-- The request-parameter computation of `_call_intent_api`
(dialogue_manager.py:277-282): when `is_json`, render the body template
and parse it with `json.loads` (fallible), otherwise pass the extracted
parameters directly. -/
def apiCallParameters (o : ApiOracles) (api_details : ApiDetails) (s : State) :
    Except PyErr (Dict String) :=
  if api_details.is_json then
    o.jsonLoads (o.render api_details.json_data s.context s.extracted_parameters)
  else .ok s.extracted_parameters

/-- `DialogueManager._call_intent_api` (dialogue_manager.py:272-288):
render the url (and the json body when `is_json`), invoke `call_api`,
and re-raise its `APICallExcetion` as
`DialogueManagerException("API call failed")`; any other exception
propagates unchanged. -/
def callIntentApi (o : ApiOracles) (intent : IntentModel) (s : State) :
    Except PyErr String :=
  match intent.api_details with
  | none => .error (.otherError "api_details is None")
  | some api_details =>
    let rendered_url := o.render api_details.url s.context s.extracted_parameters
    match apiCallParameters o api_details s with
    | .error e => .error e
    | .ok parameters =>
      match o.callApi rendered_url api_details.request_type api_details.headers
          parameters api_details.is_json with
      | .ok result => .ok result
      | .error (.apiCallError _) => .error (.dmError "API call failed")
      | .error e => .error e

/-- `DialogueManager._handle_api_trigger` (dialogue_manager.py:254-270):
when the intent has `api_trigger` and non-null `api_details`, call the
API and render `speech_response` with the result; a
`DialogueManagerException` raised inside the `try` block is replaced by
the fixed fallback bot message, every other exception propagates.
Without an API trigger, render `speech_response` directly. -/
def handleApiTrigger (o : ApiOracles) (intent : IntentModel) (s : State) :
    Except PyErr State :=
  if intent.api_trigger ∧ intent.api_details.isSome then
    let attempt : Except PyErr State := do
      let result ← callIntentApi o intent s
      let rendered_text := o.renderWithResult intent.speech_response s.context
        s.extracted_parameters result
      pure { s with bot_message := some ((split_sentence rendered_text).map Message.mk) }
    match attempt with
    | .ok s1 => .ok s1
    | .error (.dmError _) =>
      let fallback := [Message.mk "Service is not available. Please try again later."]
      .ok { s with bot_message := some fallback }
    | .error e => .error e
  else
    let rendered_text := o.render intent.speech_response s.context s.extracted_parameters
    .ok { s with bot_message := some ((split_sentence rendered_text).map Message.mk) }

/-!
### Spec-side definitions and concrete sample inputs
-/

/-- Modelled from the spec's words (for comparison with the code's
`text.split("/")[1]`): "the substring between the first and second `/`"
of a text that starts with `/` — the characters after the leading slash
up to, but not including, the next slash (or the end of the text when
there is no second slash). -/
def betweenFirstTwoSlashes (s : String) : String :=
  ((s.toList.drop 1).takeWhile (fun x => x ≠ '/')).asString

/-- The missing-parameter invariant claimed by the spec for
`_process_intent`: the set of missing names is exactly the required
parameter names absent from `extracted_parameters`, and `complete` holds
iff nothing is missing. -/
def missingParamInvariant (parameters : List ParameterModel) (s : State) : Prop :=
  s.missing_parameters.toFinset =
    ((parameters.filter
        (fun p => p.required && !(dictHasKey s.extracted_parameters p.name))).map
      (fun p => p.name)).toFinset
  ∧ s.complete = s.missing_parameters.isEmpty

/-- A fresh state as `init_state` creates it: `State(thread_id)` with
every constructor default (models.py:94-119). -/
def freshState (thread_id : String) (now : Nat) : State :=
  State.init thread_id none none none none none none none false (some "") none now

/-- Sample inbound message. -/
def sampleMsg : UserMessage := ⟨"t1", "hello world", [("chan", "web")]⟩

/-- Sample completed mid-conversation state (for the reset-on-completion
witness). -/
def sampleCompleteState : State :=
  { freshState "t1" 0 with
      complete := true
      bot_message := some [Message.mk "old"]
      intent := some [("id", "greet")]
      parameters := [("origin", "city", true)]
      extracted_parameters := [("origin", "Boston")]
      missing_parameters := ["destination"]
      current_node := some "destination"
      context := [("k", "v")] }

/-- Sample cancel / book-flight intents and a mid-slot-filling state. -/
def cancelIntent : IntentModel := ⟨"cancel", [], false, none, "Cancelled"⟩

def bookFlightIntent : IntentModel :=
  ⟨"book_flight",
    [⟨"origin", "city", true, "Where from?"⟩,
     ⟨"destination", "city", true, "Where to?###Tell me"⟩],
    false, none, "Booked"⟩

def midFillingState : State :=
  { freshState "t1" 0 with
      user_message := some sampleMsg
      intent := some [("id", "book_flight")]
      parameters := [("origin", "city", true), ("destination", "city", true)]
      extracted_parameters := [("origin", "Boston")]
      missing_parameters := ["destination"]
      current_node := some "destination"
      nlu := some ⟨[("city", "Denver")], []⟩ }

/-- An active intent whose parameter list is empty, paired with a state
carrying stale slot data: the code skips the whole slot-filling block,
so the spec's missing-parameter invariant fails here. -/
def noParamIntent : IntentModel := ⟨"greet", [], false, none, "hi"⟩

def staleMissingState : State :=
  { freshState "t1" 0 with
      user_message := some sampleMsg
      missing_parameters := ["x"] }

/-- Catalog change mid-activation: the state's snapshot lists `origin`,
but the live model now lists `destination` instead. -/
def snapshotOriginState : State :=
  { freshState "t1" 0 with
      user_message := some sampleMsg
      intent := some [("id", "book_flight")]
      parameters := [("origin", "city", true)]
      nlu := some ⟨[("city", "Paris")], []⟩ }

def liveOriginIntent : IntentModel :=
  ⟨"book_flight", [⟨"origin", "city", true, "From?"⟩], false, none, "ok"⟩

def liveDestinationIntent : IntentModel :=
  ⟨"book_flight", [⟨"destination", "city", true, "To?"⟩], false, none, "ok"⟩

/-- A single-required-parameter intent whose slot is filled this turn,
with a non-empty `bot_message` on entry (for the frame-effect claim). -/
def oneShotIntent : IntentModel :=
  ⟨"book_flight", [⟨"origin", "city", true, "Where from?"⟩], false, none, "ok"⟩

def oneShotState : State :=
  { freshState "t1" 0 with
      user_message := some sampleMsg
      bot_message := some [Message.mk "old"]
      nlu := some ⟨[("city", "Boston")], []⟩ }

/-- A free-text slot being prompted, with a previously extracted value
that the new turn overwrites. -/
def freeTextIntent : IntentModel :=
  ⟨"take_note", [⟨"note", "free_text", true, "Say it"⟩], false, none, "ok"⟩

def freeTextState : State :=
  { freshState "t1" 0 with
      user_message := some sampleMsg
      intent := some [("id", "take_note")]
      parameters := [("note", "free_text", true)]
      extracted_parameters := [("note", "old value")]
      missing_parameters := []
      current_node := some "note"
      nlu := some ⟨[("free_text", "ignored entity")], []⟩ }

/-- An API-trigger intent and oracles whose invoker always fails with the
invoker's failure error (`APICallExcetion`). -/
def sampleApiDetails : ApiDetails :=
  ⟨"http://svc/{{ parameters.origin }}", "POST", [("X-Auth", "tok")], false, ""⟩

def apiTriggerIntent : IntentModel :=
  ⟨"book_flight", [], true, some sampleApiDetails, "Done {{ result }}"⟩

def failingOracles : ApiOracles :=
  { render := fun template _ _ => template
    renderWithResult := fun template _ _ _ => template
    jsonLoads := fun _ => .ok []
    callApi := fun _ _ _ _ _ => .error (.apiCallError "boom") }

def apiTriggerState : State :=
  { freshState "t1" 0 with
      user_message := some sampleMsg
      extracted_parameters := [("origin", "Boston")]
      complete := true }

/-- A state whose `intent` field is Python `None` (as `State.update`
leaves it after a completed turn): the Mongo round trip normalizes it to
the empty dict. -/
def noneIntentState : State :=
  { freshState "tz" 3 with intent := none }

/-- The snapshot step of `_process_intent` (dialogue_manager.py:215-221)
in isolation, for stating how the slot-filling body decomposes. -/
def snapshotStep (parameters : List ParameterModel) (s : State) : State :=
  if s.parameters.length = 0 then
    { s with parameters := parameters.map (fun p => (p.name, p.type, p.required)) }
  else s

/-!
### Dictionary lemmas
-/

theorem dictGet_dictSet_self {V : Type} (d : Dict V) (k : String) (v : V) :
    dictGet (dictSet d k v) k = some v := by
  induction d with
  | nil => simp [dictSet, dictGet]
  | cons kv t ih =>
    by_cases h : kv.1 = k
    · simp [dictSet, dictGet, h]
    · simp only [dictSet, dictGet, h, if_false]
      exact ih

theorem dictGet_dictSet_ne {V : Type} (d : Dict V) (k k2 : String) (v : V)
    (h : k ≠ k2) : dictGet (dictSet d k v) k2 = dictGet d k2 := by
  induction d with
  | nil => simp [dictSet, dictGet, h]
  | cons kv t ih =>
    by_cases h1 : kv.1 = k
    · simp [dictSet, dictGet, h1, h]
    · simp only [dictSet, dictGet, h1, if_false]
      by_cases h2 : kv.1 = k2
      · simp [dictGet, h2]
      · simp only [dictGet, h2, if_false]
        exact ih

theorem dictGet_eq_none_of_not_mem {V : Type} (d : Dict V) (k : String)
    (h : k ∉ d.map Prod.fst) : dictGet d k = none := by
  induction d with
  | nil => simp [dictGet]
  | cons kv t ih =>
    simp only [List.map_cons, List.mem_cons] at h
    push_neg at h
    have h1 : kv.1 ≠ k := fun he => h.1 he.symm
    simp only [dictGet, h1, if_false]
    exact ih h.2

/-- Merging a duplicate-free dict `m` into `d` yields `m`'s binding where
`m` has the key and `d`'s binding elsewhere. -/
theorem dictGet_dictMerge {V : Type} (d m : Dict V) (k : String)
    (hm : (m.map Prod.fst).Nodup) :
    dictGet (dictMerge d m) k = optOr (dictGet m k) (dictGet d k) := by
  induction m generalizing d with
  | nil => simp [dictMerge, dictGet, optOr]
  | cons kv t ih =>
    simp only [List.map_cons, List.nodup_cons] at hm
    have step : dictMerge d (kv :: t) = dictMerge (dictSet d kv.1 kv.2) t := by
      simp [dictMerge, List.foldl_cons]
    rw [step, ih _ hm.2]
    by_cases h : kv.1 = k
    · subst h
      have ht : dictGet t kv.1 = none := dictGet_eq_none_of_not_mem _ _ hm.1
      simp [dictGet, ht, dictGet_dictSet_self, optOr]
    · simp only [dictGet, h, if_false]
      cases hgt : dictGet t k with
      | some v => simp [optOr]
      | none => simp [optOr, dictGet_dictSet_ne _ _ _ _ h]

/-!
### Splitting lemmas
-/

theorem splitChar_ne_nil (c : Char) (l : List Char) : splitChar c l ≠ [] := by
  induction l with
  | nil => simp [splitChar]
  | cons x xs ih =>
    simp only [splitChar]
    by_cases h : x = c
    · simp [h]
    · simp only [h, if_false]
      cases hr : splitChar c xs with
      | nil => simp
      | cons h2 t2 => simp

/-- The first piece of a character-level split is the prefix up to the
first separator. -/
theorem splitChar_head (c : Char) (l : List Char) :
    (splitChar c l).headD [] = l.takeWhile (fun x => x ≠ c) := by
  induction l with
  | nil => simp [splitChar]
  | cons x xs ih =>
    simp only [splitChar]
    by_cases h : x = c
    · simp [h]
    · simp only [h, if_false]
      cases hr : splitChar c xs with
      | nil => exact absurd hr (splitChar_ne_nil c xs)
      | cons h2 t2 =>
        rw [hr] at ih
        simp only [List.headD_cons] at ih
        simp [h, ih]

/-- The slash-command parse: for a text starting with `/`, element 1 of
`text.split("/")` is the substring between the first and second `/`. -/
theorem pySplitSlash_getD_one (s : String) (t : List Char)
    (h : s.toList = '/' :: t) :
    (pySplitSlash s).getD 1 "" = betweenFirstTwoSlashes s := by
  have hsplit : splitChar '/' s.toList = [] :: splitChar '/' t := by
    rw [h]; simp [splitChar]
  cases hr : splitChar '/' t with
  | nil => exact absurd hr (splitChar_ne_nil '/' t)
  | cons h2 t2 =>
    have hhead : h2 = t.takeWhile (fun x => x ≠ '/') := by
      have := splitChar_head '/' t
      rw [hr] at this
      simpa using this
    have hdrop : s.toList.drop 1 = t := by rw [h]; rfl
    simp only [pySplitSlash, hsplit, hr, List.map_cons]
    rw [betweenFirstTwoSlashes, hdrop, hhead]
    rfl

/-- C6: for every utterance text that starts with `/`,
`_get_intent_id_and_confidence` returns the substring between the first
and second `/` as the intent id with confidence 1.0, regardless of the
NLU prediction. -/
theorem slash_command_override (confidence_threshold : ℚ)
    (fallback_intent_id : String) (text : String) (predicted : NluPrediction)
    (h : startsWithSlash text = true) :
    getIntentIdAndConfidence confidence_threshold fallback_intent_id text predicted
      = (betweenFirstTwoSlashes text, 1) := by
  obtain ⟨t, ht⟩ : ∃ t, text.toList = '/' :: t := by
    unfold startsWithSlash at h
    cases hl : text.toList with
    | nil => rw [hl] at h; simp at h
    | cons x xs =>
      rw [hl] at h
      simp only [decide_eq_true_eq] at h
      subst h
      exact ⟨xs, rfl⟩
  simp only [getIntentIdAndConfidence, h, if_true]
  rw [pySplitSlash_getD_one text t ht]

/-- Witness for C6: `"/book_flight"` resolves to `book_flight` with
confidence 1.0 whatever the NLU predicted. -/
theorem slash_command_override_witness :
    getIntentIdAndConfidence ((1 : ℚ)/2) "fallback" "/book_flight"
      ⟨"nlu_guess", (9 : ℚ)/10⟩ = ("book_flight", 1) := by
  rw [slash_command_override ((1 : ℚ)/2) "fallback" "/book_flight"
    ⟨"nlu_guess", (9 : ℚ)/10⟩ (by decide)]
  decide

/-- C7: for a text that does not start with `/`, a prediction strictly
below the threshold resolves to the fallback intent with confidence 1.0,
and otherwise the prediction is returned with its own confidence. -/
theorem low_confidence_fallback (confidence_threshold : ℚ)
    (fallback_intent_id : String) (text : String) (predicted : NluPrediction)
    (h : startsWithSlash text = false) :
    (predicted.confidence < confidence_threshold →
      getIntentIdAndConfidence confidence_threshold fallback_intent_id text predicted
        = (fallback_intent_id, 1)) ∧
    (¬ predicted.confidence < confidence_threshold →
      getIntentIdAndConfidence confidence_threshold fallback_intent_id text predicted
        = (predicted.intent, predicted.confidence)) := by
  constructor
  · intro hc
    simp [getIntentIdAndConfidence, h, hc]
  · intro hc
    simp [getIntentIdAndConfidence, h, hc]

/-- Witness for C7 at concrete confidences on both sides of the
threshold. -/
theorem low_confidence_fallback_witness :
    getIntentIdAndConfidence ((1 : ℚ)/2) "fallback" "hello"
        ⟨"greet", (1 : ℚ)/4⟩ = ("fallback", 1) ∧
    getIntentIdAndConfidence ((1 : ℚ)/2) "fallback" "hello"
        ⟨"greet", (3 : ℚ)/4⟩ = ("greet", (3 : ℚ)/4) := by
  constructor
  · exact (low_confidence_fallback ((1 : ℚ)/2) "fallback" "hello"
      ⟨"greet", (1 : ℚ)/4⟩ (by decide)).1 (by norm_num)
  · exact (low_confidence_fallback ((1 : ℚ)/2) "fallback" "hello"
      ⟨"greet", (3 : ℚ)/4⟩ (by decide)).2 (by norm_num)

/-!
### C2: reset on completion
-/

/-- C2: for every completed state, `State.update` clears `bot_message`,
`intent`, `parameters`, `extracted_parameters`, `missing_parameters` and
`current_node`, sets `complete` to false, keeps `thread_id`, and the
context is only merged with the message context (a key ends up with the
message's value when the message has it, and the old value otherwise, so
keys are added or overwritten but never removed and the dict is never
wholesale-replaced). The message context is a Python dict, hence its
keys are duplicate-free. -/
theorem reset_on_completion (s : State) (m : UserMessage) (now : Nat)
    (hc : s.complete = true) (hm : (m.context.map Prod.fst).Nodup) :
    (State.update s m now).bot_message = some [] ∧
    (State.update s m now).intent = none ∧
    (State.update s m now).parameters = [] ∧
    (State.update s m now).extracted_parameters = [] ∧
    (State.update s m now).missing_parameters = [] ∧
    (State.update s m now).current_node = none ∧
    (State.update s m now).complete = false ∧
    (State.update s m now).thread_id = s.thread_id ∧
    (∀ k, dictGet (State.update s m now).context k =
      optOr (dictGet m.context k) (dictGet s.context k)) := by
  unfold State.update
  simp only [hc, if_true]
  refine ⟨by simp, by simp, by simp, by simp, by simp, by simp, by simp, by simp, ?_⟩
  intro k
  simpa using dictGet_dictMerge s.context m.context k hm

/-- Witness for C2 at a concrete completed state: the merge keeps the old
key `"k"`, overwrites nothing, and adds the message's `"chan"` key. -/
theorem reset_on_completion_witness :
    sampleCompleteState.complete = true ∧
    (State.update sampleCompleteState sampleMsg 7).intent = none ∧
    (State.update sampleCompleteState sampleMsg 7).extracted_parameters = [] ∧
    dictGet (State.update sampleCompleteState sampleMsg 7).context "k" =
      dictGet sampleCompleteState.context "k" ∧
    dictGet (State.update sampleCompleteState sampleMsg 7).context "chan" =
      some "web" := by
  have h := reset_on_completion sampleCompleteState sampleMsg 7 (by decide) (by decide)
  refine ⟨by decide, h.2.1, h.2.2.2.1, ?_, ?_⟩
  · have hk := h.2.2.2.2.2.2.2.2 "k"
    simpa using hk
  · have hk := h.2.2.2.2.2.2.2.2 "chan"
    simpa using hk

/-!
### C8: cancel escape hatch
-/

/-- C8: whenever the resolved query intent's id is literally `cancel`,
`_process_intent` forces a completed state with every slot field cleared
and returns the cancel intent as the active intent, whatever the state
(including mid-slot-filling) and whatever the previous active intent. -/
theorem cancel_escape_hatch (query_intent active_intent : IntentModel) (s : State)
    (h : query_intent.intent_id = "cancel") :
    (processIntent query_intent active_intent s).1.complete = true ∧
    (processIntent query_intent active_intent s).1.parameters = [] ∧
    (processIntent query_intent active_intent s).1.extracted_parameters = [] ∧
    (processIntent query_intent active_intent s).1.missing_parameters = [] ∧
    (processIntent query_intent active_intent s).1.current_node = none ∧
    (processIntent query_intent active_intent s).2 = query_intent ∧
    (processIntent query_intent active_intent s).2.intent_id = "cancel" := by
  simp [processIntent, h]

/-- Witness for C8: cancelling out of a mid-slot-filling state. -/
theorem cancel_escape_hatch_witness :
    midFillingState.extracted_parameters ≠ [] ∧
    (processIntent cancelIntent bookFlightIntent midFillingState).1.complete = true ∧
    (processIntent cancelIntent bookFlightIntent midFillingState).1.parameters = [] ∧
    (processIntent cancelIntent bookFlightIntent midFillingState).1.extracted_parameters = [] ∧
    (processIntent cancelIntent bookFlightIntent midFillingState).1.missing_parameters = [] ∧
    (processIntent cancelIntent bookFlightIntent midFillingState).1.current_node = none ∧
    (processIntent cancelIntent bookFlightIntent midFillingState).2 = cancelIntent := by
  have h := cancel_escape_hatch cancelIntent bookFlightIntent midFillingState rfl
  exact ⟨by decide, h.1, h.2.1, h.2.2.1, h.2.2.2.1, h.2.2.2.2.1, h.2.2.2.2.2.1⟩

/-!
### Structural lemmas about the slot-filling body
-/

theorem handleMissingParameters_missing (ps : List ParameterModel) (s : State) :
    (handleMissingParameters ps s).missing_parameters =
      (ps.filter (fun p => p.required && !(dictHasKey s.extracted_parameters p.name))).map
        (fun p => p.name) := by
  unfold handleMissingParameters
  cases h : ps.filter (fun p => p.required && !(dictHasKey s.extracted_parameters p.name)) with
  | nil => simp [h]
  | cons m ms => simp [h]

theorem handleMissingParameters_extracted (ps : List ParameterModel) (s : State) :
    (handleMissingParameters ps s).extracted_parameters = s.extracted_parameters := by
  unfold handleMissingParameters
  cases h : ps.filter (fun p => p.required && !(dictHasKey s.extracted_parameters p.name)) with
  | nil => simp [h]
  | cons m ms => simp [h]

theorem handleMissingParameters_parameters (ps : List ParameterModel) (s : State) :
    (handleMissingParameters ps s).parameters = s.parameters := by
  unfold handleMissingParameters
  cases h : ps.filter (fun p => p.required && !(dictHasKey s.extracted_parameters p.name)) with
  | nil => simp [h]
  | cons m ms => simp [h]

theorem processIntentCore_extracted (ps : List ParameterModel) (s : State) :
    (processIntentCore ps s).extracted_parameters =
      (fillParams s.current_node s.userText ps s.extracted_parameters
        (buildEntitiesByType s.nluEntities)).1 := by
  unfold processIntentCore
  by_cases h : s.parameters.length = 0
  · simp [h, handleMissingParameters_extracted, State.userText, State.nluEntities]
  · simp [h, handleMissingParameters_extracted]

theorem processIntentCore_missing (ps : List ParameterModel) (s : State) :
    (processIntentCore ps s).missing_parameters =
      (ps.filter (fun p => p.required &&
          !(dictHasKey (processIntentCore ps s).extracted_parameters p.name))).map
        (fun p => p.name) := by
  conv_lhs => unfold processIntentCore
  rw [processIntentCore_extracted]
  by_cases h : s.parameters.length = 0
  · simp [h, handleMissingParameters_missing, State.userText, State.nluEntities]
  · simp [h, handleMissingParameters_missing]

theorem processIntentCore_parameters (ps : List ParameterModel) (s : State) :
    (processIntentCore ps s).parameters =
      if s.parameters.length = 0 then ps.map (fun p => (p.name, p.type, p.required))
      else s.parameters := by
  unfold processIntentCore
  by_cases h : s.parameters.length = 0
  · simp [h, handleMissingParameters_parameters]
  · simp [h, handleMissingParameters_parameters]

theorem processIntent_snd (query_intent active_intent : IntentModel) (s : State)
    (hq : query_intent.intent_id ≠ "cancel") :
    (processIntent query_intent active_intent s).2 = active_intent := by
  simp [processIntent, hq]

theorem processIntent_fst_nonempty (query_intent active_intent : IntentModel) (s : State)
    (hq : query_intent.intent_id ≠ "cancel") (hps : active_intent.parameters ≠ []) :
    (processIntent query_intent active_intent s).1 =
      { processIntentCore active_intent.parameters s with
          complete := (processIntentCore active_intent.parameters s).missing_parameters.isEmpty } := by
  have hempty : active_intent.parameters.isEmpty = false := by
    cases h : active_intent.parameters with
    | nil => exact absurd h hps
    | cons p rest => rfl
  simp [processIntent, hq, hempty]

/-!
### C1: missing-parameter invariant (corrected)
-/

/-- Counterexample to C1 as stated: for an active intent whose parameter
list is empty, `_process_intent` skips the whole slot-filling block
(Python `if parameters:`), so a stale `missing_parameters` left in the
state survives the call and the claimed invariant fails. -/
theorem missing_invariant_counterexample :
    ¬ missingParamInvariant
        ((processIntent noParamIntent noParamIntent staleMissingState).2).parameters
        (processIntent noParamIntent noParamIntent staleMissingState).1 := by
  unfold missingParamInvariant
  decide

/-- C1 amended: after `_process_intent`, `complete` always equals the
emptiness of `missing_parameters`; and the full invariant (missing names
are exactly the required names absent from `extracted_parameters`) holds
whenever the query intent is not `cancel` and the active intent's
parameter list is non-empty — but not in general, as the counterexample
shows. -/
theorem missing_invariant_amended (query_intent active_intent : IntentModel) (s : State) :
    ((processIntent query_intent active_intent s).1.complete =
      (processIntent query_intent active_intent s).1.missing_parameters.isEmpty) ∧
    (query_intent.intent_id ≠ "cancel" → active_intent.parameters ≠ [] →
      missingParamInvariant active_intent.parameters
        (processIntent query_intent active_intent s).1) := by
  constructor
  · by_cases hq : query_intent.intent_id = "cancel"
    · simp [processIntent, hq]
    · by_cases hps : active_intent.parameters.isEmpty
      · simp [processIntent, hq, hps]
      · simp [processIntent, hq, hps]
  · intro hq hps
    rw [processIntent_fst_nonempty query_intent active_intent s hq hps]
    constructor
    · show ((processIntentCore active_intent.parameters s).missing_parameters).toFinset = _
      rw [processIntentCore_missing]
    · rfl

/-- Witness for the amended C1 on a concrete mid-filling turn: the
`Denver` entity fills `destination`, nothing is missing any more, and
`complete` is true. -/
theorem missing_invariant_amended_witness :
    (processIntent bookFlightIntent bookFlightIntent midFillingState).1.complete =
      (processIntent bookFlightIntent bookFlightIntent midFillingState).1.missing_parameters.isEmpty ∧
    missingParamInvariant bookFlightIntent.parameters
      (processIntent bookFlightIntent bookFlightIntent midFillingState).1 := by
  have h := missing_invariant_amended bookFlightIntent bookFlightIntent midFillingState
  exact ⟨h.1, h.2 (by decide) (by decide)⟩

/-!
### C3: parameter snapshot (corrected)
-/

/-- Counterexample to C3 as stated: with the same mid-activation state
(snapshot listing `origin`), swapping the live catalog entry so it lists
`destination` changes which slot the turn extracts — the loop iterates
the live `IntentModel`, not the snapshot. -/
theorem snapshot_counterexample :
    snapshotOriginState.parameters ≠ [] ∧
    liveDestinationIntent.intent_id = liveOriginIntent.intent_id ∧
    (processIntent liveDestinationIntent liveDestinationIntent snapshotOriginState).1.extracted_parameters
      ≠ (processIntent liveOriginIntent liveOriginIntent snapshotOriginState).1.extracted_parameters := by
  unfold snapshotOriginState liveDestinationIntent liveOriginIntent
  decide

/-- C3 amended: on the first turn of an activation the parameter
definitions are indeed snapshotted into `current_state.parameters`, but
on every turn the slot-filling loop iterates the live model's parameter
list; the snapshot's contents never influence which slots are extracted
or reported missing (the state's `parameters` field only gates the
snapshot itself through its emptiness). -/
theorem snapshot_amended (query_intent active_intent : IntentModel) (s : State) :
    (query_intent.intent_id ≠ "cancel" → active_intent.parameters ≠ [] →
      s.parameters = [] →
      (processIntent query_intent active_intent s).1.parameters =
        active_intent.parameters.map (fun p => (p.name, p.type, p.required))) ∧
    (∀ snap, query_intent.intent_id ≠ "cancel" → s.parameters ≠ [] → snap ≠ [] →
      (processIntent query_intent active_intent { s with parameters := snap }).1.extracted_parameters
        = (processIntent query_intent active_intent s).1.extracted_parameters ∧
      (processIntent query_intent active_intent { s with parameters := snap }).1.missing_parameters
        = (processIntent query_intent active_intent s).1.missing_parameters) := by
  constructor
  · intro hq hps hsnap
    rw [processIntent_fst_nonempty query_intent active_intent s hq hps]
    show (processIntentCore active_intent.parameters s).parameters = _
    rw [processIntentCore_parameters]
    simp [hsnap]
  · intro snap hq _ _
    by_cases hps : active_intent.parameters = []
    · have hempty : active_intent.parameters.isEmpty = true := by
        rw [hps]; rfl
      simp [processIntent, hq, hempty]
    · rw [processIntent_fst_nonempty query_intent active_intent _ hq hps,
        processIntent_fst_nonempty query_intent active_intent s hq hps]
      have hextr : (processIntentCore active_intent.parameters { s with parameters := snap }).extracted_parameters
          = (processIntentCore active_intent.parameters s).extracted_parameters := by
        rw [processIntentCore_extracted, processIntentCore_extracted]
        rfl
      have hmiss : (processIntentCore active_intent.parameters { s with parameters := snap }).missing_parameters
          = (processIntentCore active_intent.parameters s).missing_parameters := by
        rw [processIntentCore_missing, processIntentCore_missing, hextr]
      exact ⟨hextr, hmiss⟩

/-- Witness for the amended C3: the first turn snapshots, and replacing
the snapshot leaves the extraction of a later turn untouched. -/
theorem snapshot_amended_witness :
    (processIntent oneShotIntent oneShotIntent oneShotState).1.parameters =
      [("origin", "city", true)] ∧
    (processIntent liveOriginIntent liveOriginIntent
        { snapshotOriginState with parameters := [("other", "city", false)] }).1.extracted_parameters
      = (processIntent liveOriginIntent liveOriginIntent snapshotOriginState).1.extracted_parameters := by
  have h := snapshot_amended oneShotIntent oneShotIntent oneShotState
  have h2 := snapshot_amended liveOriginIntent liveOriginIntent snapshotOriginState
  constructor
  · rw [h.1 (by decide) (by decide) rfl]; decide
  · exact (h2.2 [("other", "city", false)] (by decide) (by decide) (by decide)).1

/-!
### C4: frame effect of `_handle_missing_parameters` (corrected)
-/

theorem handleMissingParameters_node_bot (ps : List ParameterModel) (s : State) :
    ((handleMissingParameters ps s).missing_parameters = [] →
       (handleMissingParameters ps s).current_node = none ∧
       (handleMissingParameters ps s).bot_message = some []) ∧
    (∀ m ms, ps.filter
        (fun p => p.required &&
          !(dictHasKey (handleMissingParameters ps s).extracted_parameters p.name)) = m :: ms →
       (handleMissingParameters ps s).current_node = some m.name ∧
       (handleMissingParameters ps s).bot_message =
         some ((split_sentence m.prompt).map Message.mk) ∧
       (handleMissingParameters ps s).missing_parameters = (m :: ms).map (fun p => p.name)) := by
  rw [handleMissingParameters_extracted]
  unfold handleMissingParameters
  cases h : ps.filter (fun p => p.required && !(dictHasKey s.extracted_parameters p.name)) with
  | nil =>
    constructor
    · intro _; simp
    · intro m ms hcontra
      cases hcontra
  | cons m0 ms0 =>
    constructor
    · intro hmiss
      simp at hmiss
    · intro m ms heq
      cases heq
      simp

theorem processIntentCore_eq (ps : List ParameterModel) (s : State) :
    processIntentCore ps s =
      handleMissingParameters ps
        { snapshotStep ps s with
            extracted_parameters := (fillParams s.current_node s.userText ps
              s.extracted_parameters (buildEntitiesByType s.nluEntities)).1 } := by
  unfold processIntentCore snapshotStep
  by_cases h : s.parameters.length = 0
  · simp [h, State.userText, State.nluEntities]
  · simp [h]

/-- Counterexample to C4 as stated: a turn that fills the only required
slot leaves nothing missing, yet `bot_message` is not left unchanged —
`_handle_missing_parameters` resets it to the empty list
(dialogue_manager.py:241) before the response phase runs. -/
theorem frame_effect_counterexample :
    (processIntent oneShotIntent oneShotIntent oneShotState).1.missing_parameters = [] ∧
    oneShotState.bot_message = some [Message.mk "old"] ∧
    (processIntent oneShotIntent oneShotIntent oneShotState).1.bot_message = some [] ∧
    (processIntent oneShotIntent oneShotIntent oneShotState).1.bot_message
      ≠ oneShotState.bot_message := by
  unfold oneShotIntent oneShotState
  decide

/-- C4 amended: after the extraction pass, if no required parameter is
missing then `current_node` is cleared and `bot_message` is reset to the
empty list (not left unchanged); if at least one required parameter is
missing, `current_node` is set to the first missing parameter's name and
`bot_message` to its prompt split on `"###"`. -/
theorem frame_effect_amended (query_intent active_intent : IntentModel) (s : State)
    (hq : query_intent.intent_id ≠ "cancel") (hps : active_intent.parameters ≠ []) :
    ((processIntent query_intent active_intent s).1.missing_parameters = [] →
       (processIntent query_intent active_intent s).1.current_node = none ∧
       (processIntent query_intent active_intent s).1.bot_message = some []) ∧
    (∀ m ms, active_intent.parameters.filter
        (fun p => p.required &&
          !(dictHasKey (processIntent query_intent active_intent s).1.extracted_parameters p.name))
        = m :: ms →
       (processIntent query_intent active_intent s).1.current_node = some m.name ∧
       (processIntent query_intent active_intent s).1.bot_message =
         some ((split_sentence m.prompt).map Message.mk) ∧
       (processIntent query_intent active_intent s).1.missing_parameters =
         (m :: ms).map (fun p => p.name)) := by
  rw [processIntent_fst_nonempty query_intent active_intent s hq hps]
  rw [processIntentCore_eq]
  exact handleMissingParameters_node_bot active_intent.parameters _

/-- Witness for the amended C4: both arms at concrete inputs — a filled
turn clears the prompt state, a missing `destination` sets the prompt
(split on `"###"` into two segments) and the node. -/
theorem frame_effect_amended_witness :
    ((processIntent oneShotIntent oneShotIntent oneShotState).1.current_node = none ∧
     (processIntent oneShotIntent oneShotIntent oneShotState).1.bot_message = some []) ∧
    ((processIntent bookFlightIntent bookFlightIntent
        { oneShotState with current_node := some "origin" }).1.current_node = some "destination" ∧
     (processIntent bookFlightIntent bookFlightIntent
        { oneShotState with current_node := some "origin" }).1.bot_message =
       some [Message.mk "Where to?", Message.mk "Tell me"] ∧
     (processIntent bookFlightIntent bookFlightIntent
        { oneShotState with current_node := some "origin" }).1.missing_parameters =
       ["destination"]) := by
  constructor
  · exact (frame_effect_amended oneShotIntent oneShotIntent oneShotState
      (by decide) (by decide)).1 (by decide)
  · have h := (frame_effect_amended bookFlightIntent bookFlightIntent
      { oneShotState with current_node := some "origin" } (by decide) (by decide)).2
      ⟨"destination", "city", true, "Where to?###Tell me"⟩ [] (by decide)
    exact ⟨h.1, h.2.1, h.2.2⟩

/-!
### C9: free-text consumption and FIFO entity popping
-/

/-- A key named by no parameter of the loop is never written. -/
theorem fillParams_stable (current_node : Option String) (user_text : String)
    (ps : List ParameterModel) (extracted : Dict String)
    (entities_by_type : Dict (List String)) (n : String)
    (hn : n ∉ ps.map (fun p => p.name)) :
    dictGet (fillParams current_node user_text ps extracted entities_by_type).1 n
      = dictGet extracted n := by
  induction ps generalizing extracted entities_by_type with
  | nil => rfl
  | cons p rest ih =>
    simp only [List.map_cons, List.mem_cons] at hn
    push_neg at hn
    have hpn : p.name ≠ n := fun he => hn.1 he.symm
    unfold fillParams
    by_cases hft : p.type = "free_text" ∧ current_node = some p.name
    · rw [if_pos hft, ih _ _ hn.2, dictGet_dictSet_ne _ _ _ _ hpn]
    · rw [if_neg hft]
      cases hebt : dictGet entities_by_type p.type with
      | none => exact ih _ _ hn.2
      | some l =>
        cases l with
        | nil => exact ih _ _ hn.2
        | cons v vs =>
          rw [ih _ _ hn.2, dictGet_dictSet_ne _ _ _ _ hpn]

/-- A free-text parameter currently being prompted always ends up bound
to the whole raw utterance text. -/
theorem fillParams_free_text (current_node : Option String) (user_text : String)
    (ps : List ParameterModel) (extracted : Dict String)
    (entities_by_type : Dict (List String)) (p : ParameterModel)
    (hmem : p ∈ ps) (hnodup : (ps.map (fun q => q.name)).Nodup)
    (hft : p.type = "free_text") (hcn : current_node = some p.name) :
    dictGet (fillParams current_node user_text ps extracted entities_by_type).1 p.name
      = some user_text := by
  induction ps generalizing extracted entities_by_type with
  | nil => cases hmem
  | cons q rest ih =>
    simp only [List.map_cons, List.nodup_cons] at hnodup
    rcases List.mem_cons.mp hmem with heq | hmem2
    · subst heq
      unfold fillParams
      rw [if_pos ⟨hft, hcn⟩, fillParams_stable _ _ _ _ _ _ hnodup.1,
        dictGet_dictSet_self]
    · have hq : q.name ≠ p.name := by
        intro he
        exact hnodup.1 (he ▸ List.mem_map_of_mem (fun r => r.name) hmem2)
      unfold fillParams
      by_cases hqc : q.type = "free_text" ∧ current_node = some q.name
      · exfalso
        rw [hcn] at hqc
        exact hq (Option.some.inj hqc.2).symm
      · rw [if_neg hqc]
        cases hebt : dictGet entities_by_type q.type with
        | none => exact ih _ _ hmem2 hnodup.2
        | some l =>
          cases l with
          | nil => exact ih _ _ hmem2 hnodup.2
          | cons v vs => exact ih _ _ hmem2 hnodup.2

/-- The head parameter of the loop, when not in the free-text case, is
filled with the head of its type's unconsumed entity bucket (overwriting
any earlier value) and is untouched when the bucket is absent or empty. -/
theorem fillParams_head (current_node : Option String) (user_text : String)
    (p : ParameterModel) (rest : List ParameterModel) (extracted : Dict String)
    (entities_by_type : Dict (List String))
    (hnot : ¬ (p.type = "free_text" ∧ current_node = some p.name))
    (hrest : p.name ∉ rest.map (fun q => q.name)) :
    (∀ v vs, dictGet entities_by_type p.type = some (v :: vs) →
       dictGet (fillParams current_node user_text (p :: rest) extracted entities_by_type).1 p.name
         = some v) ∧
    ((dictGet entities_by_type p.type = none ∨ dictGet entities_by_type p.type = some []) →
       dictGet (fillParams current_node user_text (p :: rest) extracted entities_by_type).1 p.name
         = dictGet extracted p.name) := by
  constructor
  · intro v vs hebt
    unfold fillParams
    rw [if_neg hnot]
    simp only [hebt]
    rw [fillParams_stable _ _ _ _ _ _ hrest, dictGet_dictSet_self]
  · intro hebt
    unfold fillParams
    rw [if_neg hnot]
    rcases hebt with hebt | hebt
    · simp only [hebt]
      exact fillParams_stable _ _ _ _ _ _ hrest
    · simp only [hebt]
      exact fillParams_stable _ _ _ _ _ _ hrest

/-- C9: `_process_intent`'s extraction pass is exactly the `fillParams`
loop; a free-text parameter being prompted (`current_node == p.name`)
receives the whole raw utterance text, ignoring NLU entities; any other
parameter is filled only by popping the first unconsumed entity value of
its type, and is silently overwritten regardless of a value extracted in
an earlier turn (the conclusion holds for every prior
`extracted_parameters` binding of that name). -/
theorem free_text_and_fifo (query_intent active_intent : IntentModel) (s : State)
    (um : UserMessage) (hq : query_intent.intent_id ≠ "cancel")
    (hnodup : (active_intent.parameters.map (fun p => p.name)).Nodup)
    (hum : s.user_message = some um) :
    ((processIntent query_intent active_intent s).1.extracted_parameters =
       (fillParams s.current_node um.text active_intent.parameters
         s.extracted_parameters (buildEntitiesByType s.nluEntities)).1) ∧
    (∀ p, p ∈ active_intent.parameters → p.type = "free_text" →
       s.current_node = some p.name →
       dictGet (processIntent query_intent active_intent s).1.extracted_parameters p.name
         = some um.text) ∧
    (∀ (extracted : Dict String) (entities_by_type : Dict (List String))
        (p : ParameterModel) (rest : List ParameterModel),
       ¬ (p.type = "free_text" ∧ s.current_node = some p.name) →
       p.name ∉ rest.map (fun q => q.name) →
       (∀ v vs, dictGet entities_by_type p.type = some (v :: vs) →
          dictGet (fillParams s.current_node um.text (p :: rest) extracted entities_by_type).1 p.name
            = some v) ∧
       ((dictGet entities_by_type p.type = none ∨ dictGet entities_by_type p.type = some []) →
          dictGet (fillParams s.current_node um.text (p :: rest) extracted entities_by_type).1 p.name
            = dictGet extracted p.name)) := by
  have htext : s.userText = um.text := by
    unfold State.userText
    rw [hum]
  have hbase : (processIntent query_intent active_intent s).1.extracted_parameters =
      (fillParams s.current_node um.text active_intent.parameters
        s.extracted_parameters (buildEntitiesByType s.nluEntities)).1 := by
    by_cases hps : active_intent.parameters = []
    · have hempty : active_intent.parameters.isEmpty = true := by rw [hps]; rfl
      rw [hps]
      simp [processIntent, hq, hempty, fillParams]
    · rw [processIntent_fst_nonempty query_intent active_intent s hq hps]
      show (processIntentCore active_intent.parameters s).extracted_parameters = _
      rw [processIntentCore_extracted, htext]
  refine ⟨hbase, ?_, ?_⟩
  · intro p hmem hft hcn
    rw [hbase]
    exact fillParams_free_text s.current_node um.text active_intent.parameters
      s.extracted_parameters (buildEntitiesByType s.nluEntities) p hmem hnodup hft hcn
  · intro extracted entities_by_type p rest hnot hrest
    exact fillParams_head s.current_node um.text p rest extracted entities_by_type hnot hrest

/-- Witness for C9: the prompted free-text slot `note` takes the whole
utterance `"hello world"`, overwriting the `"old value"` extracted on an
earlier turn and ignoring the NLU `free_text` entity; a non-free-text
head parameter pops the head of its entity bucket. -/
theorem free_text_and_fifo_witness :
    dictGet freeTextState.extracted_parameters "note" = some "old value" ∧
    dictGet (processIntent freeTextIntent freeTextIntent freeTextState).1.extracted_parameters "note"
      = some "hello world" ∧
    dictGet (fillParams freeTextState.current_node "hello world"
        [⟨"origin", "city", true, "From?"⟩] [("origin", "Syracuse")]
        [("city", ["Boston", "Denver"])]).1 "origin" = some "Boston" := by
  have h := free_text_and_fifo freeTextIntent freeTextIntent freeTextState sampleMsg
    (by decide) (by decide) rfl
  refine ⟨by decide, ?_, ?_⟩
  · exact h.2.1 ⟨"note", "free_text", true, "Say it"⟩ (by decide) rfl rfl
  · exact (h.2.2 [("origin", "Syracuse")] [("city", ["Boston", "Denver"])]
      ⟨"origin", "city", true, "From?"⟩ [] (by decide) (by decide)).1 "Boston" ["Denver"] rfl

/-!
### C5: API-failure fallback
-/

/-- C5: for an intent with `api_trigger` and non-null `api_details`,
when the invoker signals its failure error (`APICallExcetion`), the
returned state's `bot_message` is exactly the single fixed fallback
segment and no error escapes `_handle_api_trigger` (it returns
normally, so nothing propagates to `process`'s caller); an error of any
other kind on the same path is not absorbed but propagates. -/
theorem api_failure_fallback (o : ApiOracles) (intent : IntentModel) (s : State)
    (api_details : ApiDetails) (parameters : Dict String)
    (htrig : intent.api_trigger = true)
    (hd : intent.api_details = some api_details)
    (hparams : apiCallParameters o api_details s = .ok parameters) :
    (∀ msg, o.callApi (o.render api_details.url s.context s.extracted_parameters)
        api_details.request_type api_details.headers parameters api_details.is_json
        = .error (.apiCallError msg) →
      handleApiTrigger o intent s =
        .ok { s with bot_message := some [Message.mk "Service is not available. Please try again later."] }) ∧
    (∀ msg, o.callApi (o.render api_details.url s.context s.extracted_parameters)
        api_details.request_type api_details.headers parameters api_details.is_json
        = .error (.otherError msg) →
      handleApiTrigger o intent s = .error (.otherError msg)) := by
  have hsome : intent.api_details.isSome = true := by rw [hd]; rfl
  constructor
  · intro msg hfail
    unfold handleApiTrigger
    rw [if_pos ⟨htrig, hsome⟩]
    unfold callIntentApi
    rw [hd]
    simp only [hparams, hfail]
    rfl
  · intro msg hfail
    unfold handleApiTrigger
    rw [if_pos ⟨htrig, hsome⟩]
    unfold callIntentApi
    rw [hd]
    simp only [hparams, hfail]
    rfl

/-- Witness for C5: a concrete failing invoker yields exactly the fixed
fallback segment as the whole `bot_message`. -/
theorem api_failure_fallback_witness :
    handleApiTrigger failingOracles apiTriggerIntent apiTriggerState =
      .ok { apiTriggerState with bot_message := some [Message.mk "Service is not available. Please try again later."] } := by
  exact (api_failure_fallback failingOracles apiTriggerIntent apiTriggerState
    sampleApiDetails apiTriggerState.extracted_parameters rfl rfl rfl).1 "boom" rfl

/-!
### C10: Mongo save/get round trip (corrected)
-/

/-- Counterexample to C10 as stated: the claim requires `intent` to round
trip unchanged, but a state whose `intent` is Python `None` comes back as
the empty dict — `State.from_dict` hands the projected value to the
constructor, which applies `intent or {}`. -/
theorem mongo_roundtrip_counterexample :
    noneIntentState.intent = none ∧
    (mongoRoundtrip noneIntentState 5).intent = some [] ∧
    (mongoRoundtrip noneIntentState 5).intent ≠ noneIntentState.intent := by
  unfold noneIntentState mongoRoundtrip projectSavedState State.from_dict State.init freshState
  decide

/-- C10 amended: the round trip preserves `thread_id`, `context`,
`parameters`, `extracted_parameters`, `missing_parameters`, `complete`
and `current_node`; it preserves `intent` only up to the constructor's
`intent or {}` normalization (a `None` intent comes back as the empty
dict); and `user_message`, `bot_message`, `nlu` and `date` are reset to
constructor defaults (`None`, `None`, `{}`, the retrieval time) because
`get`'s projection excludes them. -/
theorem mongo_roundtrip_amended (s : State) (now : Nat) :
    (mongoRoundtrip s now).thread_id = s.thread_id ∧
    (mongoRoundtrip s now).context = s.context ∧
    (mongoRoundtrip s now).intent = some (s.intent.getD []) ∧
    (mongoRoundtrip s now).parameters = s.parameters ∧
    (mongoRoundtrip s now).extracted_parameters = s.extracted_parameters ∧
    (mongoRoundtrip s now).missing_parameters = s.missing_parameters ∧
    (mongoRoundtrip s now).complete = s.complete ∧
    (mongoRoundtrip s now).current_node = s.current_node ∧
    (mongoRoundtrip s now).user_message = none ∧
    (mongoRoundtrip s now).bot_message = none ∧
    (mongoRoundtrip s now).nlu = none ∧
    (mongoRoundtrip s now).date = now := by
  unfold mongoRoundtrip State.from_dict State.init projectSavedState
  simp

end ChatbotCore
